import Mathlib

/-
Verification of the pytidb table-binding component.

The development shallowly embeds the code of src/pytidb/table.py and
src/pytidb/utils.py.  Python objects carrying dynamic attributes are modelled
as association lists from attribute names to values; the Python value None is
modelled as Option.none in the stored value, while a missing attribute
(hasattr returning False) is modelled as a failed lookup.  Fallible Python
code (raising TypeError, KeyError, ValueError, AttributeError) is modelled
with Except, the error string following the message built by the source.
-/

namespace PyTidb

/-- A Python attribute store (one record object): an association list from
attribute name to value.  A failed outer lookup models `hasattr` returning
False; a stored `Option.none` models an attribute whose value is the Python
None object. -/
def Record (α : Type) : Type := List (String × Option α)

instance (α : Type) [DecidableEq α] : DecidableEq (Record α) := by
  unfold Record
  infer_instance

/-- `getattr` without default: `Option.none` when the attribute is absent. -/
def lookupAttr {α : Type} (r : Record α) (name : String) : Option (Option α) :=
  match r with
  | [] => Option.none
  | (k, v) :: rest => if k = name then Option.some v else lookupAttr rest name

/-- `setattr`: update the attribute in place, or add it when absent. -/
def setAttr {α : Type} (r : Record α) (name : String) (v : Option α) : Record α :=
  match r with
  | [] => [(name, v)]
  | (k, w) :: rest =>
    if k = name then (k, v) :: rest else (k, w) :: setAttr rest name v

theorem lookupAttr_setAttr_self {α : Type} (r : Record α) (name : String) (v : Option α) :
    lookupAttr (setAttr r name v) name = Option.some v := by
  induction r with
  | nil => simp [setAttr, lookupAttr]
  | cons hd tl ih =>
    obtain ⟨k, w⟩ := hd
    by_cases hk : k = name
    · simp [setAttr, lookupAttr, hk]
    · simp [setAttr, lookupAttr, hk, ih]

theorem lookupAttr_setAttr_other {α : Type} (r : Record α) (name other : String)
    (v : Option α) (hne : other ≠ name) :
    lookupAttr (setAttr r name v) other = lookupAttr r other := by
  induction r with
  | nil => simp [setAttr, lookupAttr, Ne.symm hne]
  | cons hd tl ih =>
    obtain ⟨k, w⟩ := hd
    by_cases hk : k = name
    · subst hk
      have hko : ¬ k = other := fun h => hne (h ▸ rfl)
      simp [setAttr, lookupAttr, hko]
    · by_cases ho : k = other
      · subst ho
        simp [setAttr, lookupAttr, hk]
      · simp [setAttr, lookupAttr, hk, ho, ih]

theorem lookupAttr_setAttr_isSome {α : Type} (r : Record α) (name other : String)
    (v : Option α) (h : (lookupAttr r other).isSome = true) :
    (lookupAttr (setAttr r name v) other).isSome = true := by
  by_cases hno : other = name
  · subst hno
    rw [lookupAttr_setAttr_self]
    rfl
  · rw [lookupAttr_setAttr_other r name other v hno]
    exact h

/-- The external embedding function collaborator: `get_source_embedding` is the
single-value form, `get_source_embeddings` the batch form.  Inputs are Python
values (possibly None), outputs are vectors, kept abstract in `α`. -/
structure EmbedFn (α : Type) where
  get_source_embedding : Option α → α
  get_source_embeddings : List (Option α) → List α

/-- One entry of `Table._auto_embedding_configs` as built by
`Table._setup_auto_embedding`: such an entry exists only when the vector field
declares both an `embed_fn` and a `source_field`, so the model carries both as
total fields. -/
structure AutoEmbeddingConfig (α : Type) where
  embed_fn : EmbedFn α
  vector_field_name : String
  source_field_name : String

/-- The auto-embedding loop body of `Table.insert` for one config: skip when
the target vector attribute is non-None, skip when the source attribute is
absent, otherwise compute one embedding and assign it to the target attribute.
`getattr` on a record lacking the vector attribute raises AttributeError,
modelled as the error branch. -/
def insertAutoEmbedStep {α : Type} (config : AutoEmbeddingConfig α)
    (data : Record α) : Except String (Record α) :=
  match lookupAttr data config.vector_field_name with
  | Option.none => Except.error ("AttributeError: " ++ config.vector_field_name)
  | Option.some (Option.some _) => Except.ok data
  | Option.some Option.none =>
    match lookupAttr data config.source_field_name with
    | Option.none => Except.ok data
    | Option.some embedding_source =>
      Except.ok (setAttr data config.vector_field_name
        (Option.some (config.embed_fn.get_source_embedding embedding_source)))

/-- The auto-embedding phase of `Table.insert`: the loop over
`self._auto_embedding_configs.items()`, run before the record is handed to the
database session.  The resulting record is the one persisted. -/
def insertAutoEmbed {α : Type} (configs : List (AutoEmbeddingConfig α))
    (data : Record α) : Except String (Record α) :=
  match configs with
  | [] => Except.ok data
  | c :: rest =>
    match insertAutoEmbedStep c data with
    | Except.error e => Except.error e
    | Except.ok data2 => insertAutoEmbed rest data2

/-- C1: for a table whose auto-embedding configuration consists of the config
on vector field V sourced from field S, the embedding phase of `Table.insert`
leaves a non-None V unchanged regardless of S (a config never overwrites an
explicitly supplied vector), and when V is None and S is present on the record
it assigns `embed_fn.get_source_embedding` applied to the S value to V on the
record that is then persisted. -/
theorem C1_insert_auto_embedding {α : Type} (config : AutoEmbeddingConfig α)
    (data : Record α) :
    (∀ v, lookupAttr data config.vector_field_name = Option.some (Option.some v) →
      insertAutoEmbed [config] data = Except.ok data)
    ∧ (lookupAttr data config.vector_field_name = Option.some Option.none →
       ∀ src, lookupAttr data config.source_field_name = Option.some src →
        insertAutoEmbed [config] data =
          Except.ok (setAttr data config.vector_field_name
            (Option.some (config.embed_fn.get_source_embedding src)))) := by
  constructor
  · intro v hv
    simp [insertAutoEmbed, insertAutoEmbedStep, hv]
  · intro hv src hsrc
    simp [insertAutoEmbed, insertAutoEmbedStep, hv, hsrc]

theorem C1_insert_auto_embedding_witness :
    insertAutoEmbed [⟨⟨fun _ => 7, fun l => l.map fun _ => 7⟩, "embedding", "text"⟩]
        [("embedding", Option.some 5), ("text", Option.some 1)]
      = Except.ok [("embedding", Option.some 5), ("text", Option.some 1)]
    ∧ insertAutoEmbed [⟨⟨fun _ => 7, fun l => l.map fun _ => 7⟩, "embedding", "text"⟩]
        [("embedding", (Option.none : Option Nat)), ("text", Option.some 1)]
      = Except.ok [("embedding", Option.some 7), ("text", Option.some 1)] :=
  ⟨(C1_insert_auto_embedding (α := Nat)
      ⟨⟨fun _ => 7, fun l => l.map fun _ => 7⟩, "embedding", "text"⟩
      [("embedding", Option.some 5), ("text", Option.some 1)]).1 5 rfl,
   (C1_insert_auto_embedding (α := Nat)
      ⟨⟨fun _ => 7, fun l => l.map fun _ => 7⟩, "embedding", "text"⟩
      [("embedding", Option.none), ("text", Option.some 1)]).2 rfl (Option.some 1) rfl⟩

/-- The metaclass identity of the schema argument of `Table.__init__`:
`type(schema)` is compared with `is` against the three recognized schema
metaclasses `TableModelMeta`, `SQLModelMetaclass` and `DeclarativeMeta`. -/
inductive SchemaType
  | tableModelMeta
  | sqlModelMetaclass
  | declarativeMeta
  | otherType (type_name : String)
deriving DecidableEq

/-- The name interpolated into the `Invalid schema type` message. -/
def schemaTypeName : SchemaType → String
  | .tableModelMeta => "TableModelMeta"
  | .sqlModelMetaclass => "SQLModelMetaclass"
  | .declarativeMeta => "DeclarativeMeta"
  | .otherType type_name => type_name

def isRecognizedSchemaType : SchemaType → Bool
  | .tableModelMeta => true
  | .sqlModelMetaclass => true
  | .declarativeMeta => true
  | .otherType _ => false

/-- The per-field declarative metadata read from a pydantic field
`_attributes_set` by the index synchronizer.  Absent keys are modelled as
`Option.none` (the source applies the default at each `.get` site);
`skip_index` defaults to `False` at its `.get` site, modelled directly as a
`Bool` field defaulting to `false`.  The source attribute `fts_parser` is
rendered here as `fts_parser_kind`. -/
structure FieldMeta where
  skip_index : Bool := false
  distance_metric : Option String := Option.none
  algorithm : Option String := Option.none
  fts_parser_kind : Option String := Option.none
deriving DecidableEq

/-- The Python `str.lower()` on the ASCII strings used by the index
synchronizer. -/
def lowerChar (c : Char) : Char :=
  if c.isUpper then Char.ofNat (c.toNat + 32) else c

/-- The Python `str.lower()` as applied to kind markers and metric names. -/
def pyLower (s : String) : String := ⟨s.data.map lowerChar⟩

/-- Modelled from the spec: `format_distance_expression` lives in
`pytidb.orm.indexes`, which is not among the provided sources.  The spec calls
its result the canonical distance expression identifying a (column, metric)
pair, so it is modelled as an injective rendering of the pair. -/
def format_distance_expression (column_name distance_metric : String) : String :=
  "VEC_" ++ distance_metric ++ "_DISTANCE(" ++ column_name ++ ")"

/-- Modelled from the spec: a table index constraint as seen by the index
synchronizer.  `VectorIndex` and `FullTextIndex` live in `pytidb.orm.indexes`,
which is not among the provided sources; following the spec, an index carries
a name, a kind marker (what `get_index_type` reads and lowercases), the text
of its first expression (vector indexes), the name of its first column
(full-text indexes), and its creation-time parameters. -/
structure IdxInfo where
  idx_name : String
  kind_marker : String
  expr_text : String
  column_name : String
  algorithm_value : Option String := Option.none
  fts_parser_kind : Option String := Option.none
deriving DecidableEq

/-- `get_index_type` from src/pytidb/utils.py: the lowercased index-kind
marker of the index (empty for plain indexes). -/
def get_index_type (index : IdxInfo) : String := pyLower index.kind_marker

/-- Modelled from the spec: the constraint appended by
`Table._auto_create_vector_index`, a vector-kind index whose first expression
is the canonical distance expression of (column, metric). -/
def mkVectorIndex (idx_name column_name distance_metric algorithm : String) : IdxInfo :=
  { idx_name := idx_name
    kind_marker := "VECTOR"
    expr_text := format_distance_expression column_name distance_metric
    column_name := column_name
    algorithm_value := Option.some algorithm }

/-- Modelled from the spec: the constraint appended by
`Table._auto_create_fulltext_index`, a fulltext-kind index on one column with
a creation-time parser parameter. -/
def mkFullTextIndex (idx_name column_name fts_parser_kind : String) : IdxInfo :=
  { idx_name := idx_name
    kind_marker := "FULLTEXT"
    expr_text := column_name
    column_name := column_name
    fts_parser_kind := Option.some fts_parser_kind }

/-- The `indexed_expressions` list comprehension of
`Table._auto_create_vector_index`: first-expression texts of the vector-kind
indexes of the table. -/
def vectorIndexedExpressions (indexes : List IdxInfo) : List String :=
  (indexes.filter (fun index => get_index_type index = "vector")).map
    (fun index => index.expr_text)

/-- The `indexed_columns` list comprehension of
`Table._auto_create_fulltext_index`: first-column names of the fulltext-kind
indexes of the table. -/
def fulltextIndexedColumns (indexes : List IdxInfo) : List String :=
  (indexes.filter (fun index => get_index_type index = "fulltext")).map
    (fun index => index.column_name)

/-- One iteration of the loop in `Table._auto_create_vector_index`. -/
def autoCreateVectorIndexStep (field_name : String) (field : FieldMeta)
    (indexes : List IdxInfo) : List IdxInfo :=
  if field.skip_index then indexes
  else
    let distance_metric := field.distance_metric.getD "COSINE"
    let algorithm := field.algorithm.getD "HNSW"
    let distance_expression := format_distance_expression field_name distance_metric
    if distance_expression ∈ vectorIndexedExpressions indexes then indexes
    else indexes ++
      [mkVectorIndex ("vec_idx_" ++ field_name ++ "_" ++ pyLower distance_metric)
        field_name distance_metric algorithm]

/-- `Table._auto_create_vector_index`: fold of the step over the vector
fields, threading the table constraint set. -/
def _auto_create_vector_index (vector_fields : List (String × FieldMeta))
    (indexes : List IdxInfo) : List IdxInfo :=
  match vector_fields with
  | [] => indexes
  | (field_name, field) :: rest =>
    _auto_create_vector_index rest (autoCreateVectorIndexStep field_name field indexes)

/-- One iteration of the loop in `Table._auto_create_fulltext_index`. -/
def autoCreateFulltextIndexStep (field_name : String) (field : FieldMeta)
    (indexes : List IdxInfo) : List IdxInfo :=
  if field.skip_index then indexes
  else if field_name ∈ fulltextIndexedColumns indexes then indexes
  else indexes ++
    [mkFullTextIndex ("fts_idx_" ++ field_name) field_name
      (field.fts_parser_kind.getD "MULTILINGUAL")]

/-- `Table._auto_create_fulltext_index`: fold of the step over the text
fields, threading the table constraint set. -/
def _auto_create_fulltext_index (text_fields : List (String × FieldMeta))
    (indexes : List IdxInfo) : List IdxInfo :=
  match text_fields with
  | [] => indexes
  | (field_name, field) :: rest =>
    _auto_create_fulltext_index rest (autoCreateFulltextIndexStep field_name field indexes)

/-- The index-synchronization part of `Table.__init__`: vector indexes first,
then full-text indexes, threading `self._sa_table.indexes`. -/
def syncIndexes (vector_fields text_fields : List (String × FieldMeta))
    (indexes : List IdxInfo) : List IdxInfo :=
  _auto_create_fulltext_index text_fields (_auto_create_vector_index vector_fields indexes)

/-- Effects against the database performed by `Table.__init__`.  The only one
in the modelled fragment is `Base.metadata.create_all`. -/
inductive DbAction
  | createTable
deriving DecidableEq

/-- The construction sequence of `Table.__init__` relevant to schema
validation: the metaclass check runs first and raising there aborts
construction, so the database-facing `create_all` call (and the index
synchronization, gated on the schema exposing pydantic fields) is only
reached on the recognized branch; the error branch performs no database
action. -/
def tableInit (schema_type : SchemaType) (has_pydantic_fields : Bool)
    (vector_fields text_fields : List (String × FieldMeta))
    (indexes : List IdxInfo) : Except String (List IdxInfo × List DbAction) :=
  if isRecognizedSchemaType schema_type then
    let indexes2 :=
      if has_pydantic_fields then syncIndexes vector_fields text_fields indexes
      else indexes
    Except.ok (indexes2, [DbAction.createTable])
  else
    Except.error ("Invalid schema type: " ++ schemaTypeName schema_type)

/-- C2: construction fails with the invalid-schema-type error (the spec calls
it `SchemaTypeError`; the source raises `TypeError`) exactly when the schema
metaclass is unrecognized, and on that branch no database action is
performed; a recognized metaclass never raises this error. -/
theorem C2_schema_type_check (schema_type : SchemaType) (has_pydantic_fields : Bool)
    (vector_fields text_fields : List (String × FieldMeta)) (indexes : List IdxInfo) :
    (isRecognizedSchemaType schema_type = false →
      tableInit schema_type has_pydantic_fields vector_fields text_fields indexes
        = Except.error ("Invalid schema type: " ++ schemaTypeName schema_type))
    ∧ (isRecognizedSchemaType schema_type = true →
      ∃ out, tableInit schema_type has_pydantic_fields vector_fields text_fields indexes
        = Except.ok out) := by
  constructor
  · intro h
    simp [tableInit, h]
  · intro h
    refine ⟨(if has_pydantic_fields then syncIndexes vector_fields text_fields indexes
      else indexes, [DbAction.createTable]), ?_⟩
    simp [tableInit, h]

theorem C2_schema_type_check_witness :
    tableInit (.otherType "NoneType") true [] [] []
      = Except.error "Invalid schema type: NoneType"
    ∧ ∃ out, tableInit .tableModelMeta true [] [] [] = Except.ok out :=
  ⟨(C2_schema_type_check (.otherType "NoneType") true [] [] []).1 rfl,
   (C2_schema_type_check .tableModelMeta true [] [] []).2 rfl⟩

theorem get_index_type_mkVectorIndex (a b c d : String) :
    get_index_type (mkVectorIndex a b c d) = "vector" := rfl

theorem get_index_type_mkFullTextIndex (a b c : String) :
    get_index_type (mkFullTextIndex a b c) = "fulltext" := rfl

theorem vectorIndexedExpressions_append (xs ys : List IdxInfo) :
    vectorIndexedExpressions (xs ++ ys)
      = vectorIndexedExpressions xs ++ vectorIndexedExpressions ys := by
  simp [vectorIndexedExpressions, List.filter_append]

theorem fulltextIndexedColumns_append (xs ys : List IdxInfo) :
    fulltextIndexedColumns (xs ++ ys)
      = fulltextIndexedColumns xs ++ fulltextIndexedColumns ys := by
  simp [fulltextIndexedColumns, List.filter_append]

theorem vectorIndexedExpressions_single_vec (a b c d : String) :
    vectorIndexedExpressions [mkVectorIndex a b c d]
      = [format_distance_expression b c] := rfl

theorem vectorIndexedExpressions_single_ft (a b c : String) :
    vectorIndexedExpressions [mkFullTextIndex a b c] = [] := rfl

theorem fulltextIndexedColumns_single_ft (a b c : String) :
    fulltextIndexedColumns [mkFullTextIndex a b c] = [b] := rfl

theorem fulltextIndexedColumns_single_vec (a b c d : String) :
    fulltextIndexedColumns [mkVectorIndex a b c d] = [] := rfl

theorem autoCreateVectorIndexStep_skip (field_name : String) (field : FieldMeta)
    (indexes : List IdxInfo) (hsk : field.skip_index = true) :
    autoCreateVectorIndexStep field_name field indexes = indexes := by
  simp [autoCreateVectorIndexStep, hsk]

theorem autoCreateVectorIndexStep_present (field_name : String) (field : FieldMeta)
    (indexes : List IdxInfo) (hsk : field.skip_index = false)
    (hm : format_distance_expression field_name (field.distance_metric.getD "COSINE")
      ∈ vectorIndexedExpressions indexes) :
    autoCreateVectorIndexStep field_name field indexes = indexes := by
  simp [autoCreateVectorIndexStep, hsk, hm]

theorem autoCreateVectorIndexStep_absent (field_name : String) (field : FieldMeta)
    (indexes : List IdxInfo) (hsk : field.skip_index = false)
    (hm : format_distance_expression field_name (field.distance_metric.getD "COSINE")
      ∉ vectorIndexedExpressions indexes) :
    autoCreateVectorIndexStep field_name field indexes = indexes ++
      [mkVectorIndex
        ("vec_idx_" ++ field_name ++ "_" ++ pyLower (field.distance_metric.getD "COSINE"))
        field_name (field.distance_metric.getD "COSINE") (field.algorithm.getD "HNSW")] := by
  simp [autoCreateVectorIndexStep, hsk, hm]

theorem autoCreateFulltextIndexStep_skip (field_name : String) (field : FieldMeta)
    (indexes : List IdxInfo) (hsk : field.skip_index = true) :
    autoCreateFulltextIndexStep field_name field indexes = indexes := by
  simp [autoCreateFulltextIndexStep, hsk]

theorem autoCreateFulltextIndexStep_present (field_name : String) (field : FieldMeta)
    (indexes : List IdxInfo) (hsk : field.skip_index = false)
    (hm : field_name ∈ fulltextIndexedColumns indexes) :
    autoCreateFulltextIndexStep field_name field indexes = indexes := by
  simp [autoCreateFulltextIndexStep, hsk, hm]

theorem autoCreateFulltextIndexStep_absent (field_name : String) (field : FieldMeta)
    (indexes : List IdxInfo) (hsk : field.skip_index = false)
    (hm : field_name ∉ fulltextIndexedColumns indexes) :
    autoCreateFulltextIndexStep field_name field indexes = indexes ++
      [mkFullTextIndex ("fts_idx_" ++ field_name) field_name
        (field.fts_parser_kind.getD "MULTILINGUAL")] := by
  simp [autoCreateFulltextIndexStep, hsk, hm]

theorem vIE_step_subset (field_name : String) (field : FieldMeta) (indexes : List IdxInfo) :
    vectorIndexedExpressions indexes ⊆
      vectorIndexedExpressions (autoCreateVectorIndexStep field_name field indexes) := by
  cases hsk : field.skip_index
  · by_cases hm : format_distance_expression field_name (field.distance_metric.getD "COSINE")
        ∈ vectorIndexedExpressions indexes
    · rw [autoCreateVectorIndexStep_present field_name field indexes hsk hm]
      exact fun _ h => h
    · rw [autoCreateVectorIndexStep_absent field_name field indexes hsk hm,
        vectorIndexedExpressions_append]
      exact List.subset_append_left _ _
  · rw [autoCreateVectorIndexStep_skip field_name field indexes hsk]
    exact fun _ h => h

theorem vIE_fold_subset (vector_fields : List (String × FieldMeta)) (indexes : List IdxInfo) :
    vectorIndexedExpressions indexes ⊆
      vectorIndexedExpressions (_auto_create_vector_index vector_fields indexes) := by
  induction vector_fields generalizing indexes with
  | nil => exact fun x hx => hx
  | cons q rest ih =>
    obtain ⟨n, f⟩ := q
    exact (vIE_step_subset n f indexes).trans (ih _)

theorem vIE_step_mem (field_name : String) (field : FieldMeta) (indexes : List IdxInfo)
    (hsk : field.skip_index = false) :
    format_distance_expression field_name (field.distance_metric.getD "COSINE")
      ∈ vectorIndexedExpressions (autoCreateVectorIndexStep field_name field indexes) := by
  by_cases hm : format_distance_expression field_name (field.distance_metric.getD "COSINE")
      ∈ vectorIndexedExpressions indexes
  · exact vIE_step_subset field_name field indexes hm
  · rw [autoCreateVectorIndexStep_absent field_name field indexes hsk hm,
      vectorIndexedExpressions_append, vectorIndexedExpressions_single_vec]
    exact List.mem_append_right _ (List.mem_singleton.mpr rfl)

theorem vIE_fold_mem (vector_fields : List (String × FieldMeta)) (indexes : List IdxInfo) :
    ∀ p ∈ vector_fields, p.2.skip_index = false →
      format_distance_expression p.1 (p.2.distance_metric.getD "COSINE")
        ∈ vectorIndexedExpressions (_auto_create_vector_index vector_fields indexes) := by
  induction vector_fields generalizing indexes with
  | nil => simp
  | cons q rest ih =>
    intro p hp hskip
    obtain ⟨n, f⟩ := q
    rcases List.mem_cons.mp hp with hp | hp
    · subst hp
      exact vIE_fold_subset rest _ (vIE_step_mem n f indexes hskip)
    · exact ih _ p hp hskip

theorem vector_fold_stable (vector_fields : List (String × FieldMeta)) (indexes : List IdxInfo)
    (h : ∀ p ∈ vector_fields, p.2.skip_index = false →
      format_distance_expression p.1 (p.2.distance_metric.getD "COSINE")
        ∈ vectorIndexedExpressions indexes) :
    _auto_create_vector_index vector_fields indexes = indexes := by
  induction vector_fields with
  | nil => rfl
  | cons q rest ih =>
    obtain ⟨n, f⟩ := q
    have hstep : autoCreateVectorIndexStep n f indexes = indexes := by
      cases hsk : f.skip_index
      · exact autoCreateVectorIndexStep_present n f indexes hsk
          (h (n, f) (List.mem_cons_self _ _) hsk)
      · exact autoCreateVectorIndexStep_skip n f indexes hsk
    show _auto_create_vector_index rest (autoCreateVectorIndexStep n f indexes) = indexes
    rw [hstep]
    exact ih (fun p hp hs => h p (List.mem_cons_of_mem _ hp) hs)

theorem ftCols_step_subset (field_name : String) (field : FieldMeta) (indexes : List IdxInfo) :
    fulltextIndexedColumns indexes ⊆
      fulltextIndexedColumns (autoCreateFulltextIndexStep field_name field indexes) := by
  cases hsk : field.skip_index
  · by_cases hm : field_name ∈ fulltextIndexedColumns indexes
    · rw [autoCreateFulltextIndexStep_present field_name field indexes hsk hm]
      exact fun _ h => h
    · rw [autoCreateFulltextIndexStep_absent field_name field indexes hsk hm,
        fulltextIndexedColumns_append]
      exact List.subset_append_left _ _
  · rw [autoCreateFulltextIndexStep_skip field_name field indexes hsk]
    exact fun _ h => h

theorem ftCols_fold_subset (text_fields : List (String × FieldMeta)) (indexes : List IdxInfo) :
    fulltextIndexedColumns indexes ⊆
      fulltextIndexedColumns (_auto_create_fulltext_index text_fields indexes) := by
  induction text_fields generalizing indexes with
  | nil => exact fun x hx => hx
  | cons q rest ih =>
    obtain ⟨n, f⟩ := q
    exact (ftCols_step_subset n f indexes).trans (ih _)

theorem ftCols_step_mem (field_name : String) (field : FieldMeta) (indexes : List IdxInfo)
    (hsk : field.skip_index = false) :
    field_name ∈ fulltextIndexedColumns (autoCreateFulltextIndexStep field_name field indexes) := by
  by_cases hm : field_name ∈ fulltextIndexedColumns indexes
  · exact ftCols_step_subset field_name field indexes hm
  · rw [autoCreateFulltextIndexStep_absent field_name field indexes hsk hm,
      fulltextIndexedColumns_append, fulltextIndexedColumns_single_ft]
    exact List.mem_append_right _ (List.mem_singleton.mpr rfl)

theorem ftCols_fold_mem (text_fields : List (String × FieldMeta)) (indexes : List IdxInfo) :
    ∀ p ∈ text_fields, p.2.skip_index = false →
      p.1 ∈ fulltextIndexedColumns (_auto_create_fulltext_index text_fields indexes) := by
  induction text_fields generalizing indexes with
  | nil => simp
  | cons q rest ih =>
    intro p hp hskip
    obtain ⟨n, f⟩ := q
    rcases List.mem_cons.mp hp with hp | hp
    · subst hp
      exact ftCols_fold_subset rest _ (ftCols_step_mem n f indexes hskip)
    · exact ih _ p hp hskip

theorem fulltext_fold_stable (text_fields : List (String × FieldMeta)) (indexes : List IdxInfo)
    (h : ∀ p ∈ text_fields, p.2.skip_index = false →
      p.1 ∈ fulltextIndexedColumns indexes) :
    _auto_create_fulltext_index text_fields indexes = indexes := by
  induction text_fields with
  | nil => rfl
  | cons q rest ih =>
    obtain ⟨n, f⟩ := q
    have hstep : autoCreateFulltextIndexStep n f indexes = indexes := by
      cases hsk : f.skip_index
      · exact autoCreateFulltextIndexStep_present n f indexes hsk
          (h (n, f) (List.mem_cons_self _ _) hsk)
      · exact autoCreateFulltextIndexStep_skip n f indexes hsk
    show _auto_create_fulltext_index rest (autoCreateFulltextIndexStep n f indexes) = indexes
    rw [hstep]
    exact ih (fun p hp hs => h p (List.mem_cons_of_mem _ hp) hs)

theorem vIE_ft_step (field_name : String) (field : FieldMeta) (indexes : List IdxInfo) :
    vectorIndexedExpressions (autoCreateFulltextIndexStep field_name field indexes)
      = vectorIndexedExpressions indexes := by
  cases hsk : field.skip_index
  · by_cases hm : field_name ∈ fulltextIndexedColumns indexes
    · rw [autoCreateFulltextIndexStep_present field_name field indexes hsk hm]
    · rw [autoCreateFulltextIndexStep_absent field_name field indexes hsk hm,
        vectorIndexedExpressions_append, vectorIndexedExpressions_single_ft,
        List.append_nil]
  · rw [autoCreateFulltextIndexStep_skip field_name field indexes hsk]

theorem vIE_ft_fold (text_fields : List (String × FieldMeta)) (indexes : List IdxInfo) :
    vectorIndexedExpressions (_auto_create_fulltext_index text_fields indexes)
      = vectorIndexedExpressions indexes := by
  induction text_fields generalizing indexes with
  | nil => rfl
  | cons q rest ih =>
    obtain ⟨n, f⟩ := q
    show vectorIndexedExpressions
      (_auto_create_fulltext_index rest (autoCreateFulltextIndexStep n f indexes)) = _
    rw [ih, vIE_ft_step]

/-- C5: index synchronization at construction is idempotent — running the
vector-then-fulltext synchronization twice over the same field metadata
equals running it once — and each step appends a new vector index only when
no vector-kind index already carries the canonical distance expression of the
(column, metric) pair, with a name derived deterministically from column and
metric, while each full-text step appends only when no fulltext-kind index
covers the column name. -/
theorem C5_index_sync_idempotent :
    (∀ (vector_fields text_fields : List (String × FieldMeta)) (indexes : List IdxInfo),
      syncIndexes vector_fields text_fields (syncIndexes vector_fields text_fields indexes)
        = syncIndexes vector_fields text_fields indexes)
    ∧ (∀ (field_name : String) (field : FieldMeta) (indexes : List IdxInfo),
      field.skip_index = false →
      format_distance_expression field_name (field.distance_metric.getD "COSINE")
          ∈ vectorIndexedExpressions indexes →
      autoCreateVectorIndexStep field_name field indexes = indexes)
    ∧ (∀ (field_name : String) (field : FieldMeta) (indexes : List IdxInfo),
      field.skip_index = false →
      format_distance_expression field_name (field.distance_metric.getD "COSINE")
          ∉ vectorIndexedExpressions indexes →
      autoCreateVectorIndexStep field_name field indexes = indexes ++
        [mkVectorIndex
          ("vec_idx_" ++ field_name ++ "_" ++ pyLower (field.distance_metric.getD "COSINE"))
          field_name (field.distance_metric.getD "COSINE") (field.algorithm.getD "HNSW")])
    ∧ (∀ (field_name : String) (field : FieldMeta) (indexes : List IdxInfo),
      field.skip_index = false →
      field_name ∈ fulltextIndexedColumns indexes →
      autoCreateFulltextIndexStep field_name field indexes = indexes)
    ∧ (∀ (field_name : String) (field : FieldMeta) (indexes : List IdxInfo),
      field.skip_index = false →
      field_name ∉ fulltextIndexedColumns indexes →
      autoCreateFulltextIndexStep field_name field indexes = indexes ++
        [mkFullTextIndex ("fts_idx_" ++ field_name) field_name
          (field.fts_parser_kind.getD "MULTILINGUAL")]) := by
  refine ⟨?_, ?_, ?_, ?_, ?_⟩
  · intro vector_fields text_fields indexes
    show _auto_create_fulltext_index text_fields
        (_auto_create_vector_index vector_fields
          (_auto_create_fulltext_index text_fields
            (_auto_create_vector_index vector_fields indexes)))
      = _auto_create_fulltext_index text_fields (_auto_create_vector_index vector_fields indexes)
    have hvec : _auto_create_vector_index vector_fields
        (_auto_create_fulltext_index text_fields
          (_auto_create_vector_index vector_fields indexes))
        = _auto_create_fulltext_index text_fields
          (_auto_create_vector_index vector_fields indexes) := by
      refine vector_fold_stable _ _ (fun p hp hs => ?_)
      rw [vIE_ft_fold]
      exact vIE_fold_mem vector_fields indexes p hp hs
    rw [hvec]
    exact fulltext_fold_stable _ _
      (fun p hp hs => ftCols_fold_mem text_fields _ p hp hs)
  · exact autoCreateVectorIndexStep_present
  · exact autoCreateVectorIndexStep_absent
  · exact autoCreateFulltextIndexStep_present
  · exact autoCreateFulltextIndexStep_absent

theorem C5_index_sync_idempotent_witness :
    syncIndexes [("embedding", {})] [("text", {})]
        (syncIndexes [("embedding", {})] [("text", {})] [])
      = syncIndexes [("embedding", {})] [("text", {})] []
    ∧ autoCreateVectorIndexStep "embedding" {}
        [mkVectorIndex "vec_idx_embedding_cosine" "embedding" "COSINE" "HNSW"]
      = [mkVectorIndex "vec_idx_embedding_cosine" "embedding" "COSINE" "HNSW"]
    ∧ autoCreateVectorIndexStep "embedding" {} []
      = [mkVectorIndex "vec_idx_embedding_cosine" "embedding" "COSINE" "HNSW"]
    ∧ autoCreateFulltextIndexStep "text" {} [mkFullTextIndex "fts_idx_text" "text" "MULTILINGUAL"]
      = [mkFullTextIndex "fts_idx_text" "text" "MULTILINGUAL"]
    ∧ autoCreateFulltextIndexStep "text" {} []
      = [mkFullTextIndex "fts_idx_text" "text" "MULTILINGUAL"] :=
  ⟨C5_index_sync_idempotent.1 [("embedding", {})] [("text", {})] [],
   C5_index_sync_idempotent.2.1 "embedding" {}
     [mkVectorIndex "vec_idx_embedding_cosine" "embedding" "COSINE" "HNSW"] rfl (by decide),
   C5_index_sync_idempotent.2.2.1 "embedding" {} [] rfl (by decide),
   C5_index_sync_idempotent.2.2.2.1 "text" {}
     [mkFullTextIndex "fts_idx_text" "text" "MULTILINGUAL"] rfl (by decide),
   C5_index_sync_idempotent.2.2.2.2 "text" {} [] rfl (by decide)⟩

/-- The storage type instance attached to a column (`column.type`), classified
by the Python classes that src/pytidb/utils.py tests with `isinstance`:
tidb_vector `VectorType`, sqlalchemy `String`, sqlmodel `AutoString`
(a `TypeDecorator`, not a `String` subclass, hence a separate case), or
anything else. -/
inductive SqlTypeInstance
  | vectorType
  | stringType
  | autoStringType
  | otherType
deriving DecidableEq

def isinstance_VectorType : SqlTypeInstance → Bool
  | .vectorType => true
  | _ => false

def isinstance_String : SqlTypeInstance → Bool
  | .stringType => true
  | _ => false

def isinstance_AutoString : SqlTypeInstance → Bool
  | .autoStringType => true
  | _ => false

/-- A sqlalchemy column as consumed by the classifier utilities: its key in
the column collection and its storage type instance. -/
structure PyColumn where
  col_name : String
  col_type : SqlTypeInstance
deriving DecidableEq

/-- `filter_vector_columns` from src/pytidb/utils.py. -/
def filter_vector_columns (columns : List PyColumn) : List PyColumn :=
  columns.filter (fun column => isinstance_VectorType column.col_type)

/-- `filter_text_columns` from src/pytidb/utils.py. -/
def filter_text_columns (columns : List PyColumn) : List PyColumn :=
  columns.filter (fun column =>
    isinstance_AutoString column.col_type || isinstance_String column.col_type)

/-- In `check_vector_column` the source writes `vector_column.type != VectorType`,
comparing the type INSTANCE stored on the column against the `VectorType`
CLASS object itself.  Neither side defines `__eq__`/`__ne__` against the
other, so Python falls back to identity and the comparison is True for every
column, whatever its type. -/
def typeInstance_ne_VectorTypeClass (_t : SqlTypeInstance) : Bool := true

/-- `check_vector_column` from src/pytidb/utils.py.  The interpolation of the
column object into the second message is rendered as its name. -/
def check_vector_column (columns : List PyColumn) (column_name : String) :
    Except String PyColumn :=
  match columns.find? (fun column => column.col_name == column_name) with
  | Option.none => Except.error ("Non-exists vector column: " ++ column_name)
  | Option.some vector_column =>
    if typeInstance_ne_VectorTypeClass vector_column.col_type then
      Except.error ("Invalid vector column: " ++ vector_column.col_name)
    else Except.ok vector_column

/-- `check_text_column` from src/pytidb/utils.py (this one uses `isinstance`,
unlike `check_vector_column`). -/
def check_text_column (columns : List PyColumn) (column_name : String) :
    Except String PyColumn :=
  match columns.find? (fun column => column.col_name == column_name) with
  | Option.none => Except.error ("Non-exists text column: " ++ column_name)
  | Option.some text_column =>
    if !(isinstance_String text_column.col_type)
        && !(isinstance_AutoString text_column.col_type) then
      Except.error ("Invalid text column: " ++ text_column.col_name)
    else Except.ok text_column

/-- C3: the claim fails on `check_vector_column`.  The text checker behaves as
claimed, but the vector checker raises the invalid-vector-column error even
when the named column IS vector-typed, because the source compares the type
instance with the `VectorType` class object via `!=` (identity-based, always
True) instead of `isinstance` as used by `filter_vector_columns` and
`check_text_column`.  Evaluations below exhibit the failing input
(a genuine vector column) next to the behaviors the claim gets right. -/
theorem C3_check_column_bug :
    check_vector_column [⟨"vec", .vectorType⟩] "vec"
      = Except.error "Invalid vector column: vec"
    ∧ check_vector_column [⟨"vec", .vectorType⟩] "nope"
      = Except.error "Non-exists vector column: nope"
    ∧ check_text_column [⟨"txt", .stringType⟩] "txt" = Except.ok ⟨"txt", .stringType⟩
    ∧ check_text_column [⟨"txt", .autoStringType⟩] "txt" = Except.ok ⟨"txt", .autoStringType⟩
    ∧ check_text_column [⟨"txt", .vectorType⟩] "txt" = Except.error "Invalid text column: txt"
    ∧ check_text_column [⟨"txt", .stringType⟩] "nope"
      = Except.error "Non-exists text column: nope" :=
  ⟨rfl, rfl, rfl, rfl, rfl, rfl⟩

/-- A fetched sqlalchemy Row as consumed by `get_row_id_from_row`: its
`_mapping` (column key to value, in column order) and its Python `__hash__()`
value. -/
structure SaRow (α : Type) where
  mapping : List (String × α)
  row_hash : Int
deriving DecidableEq

/-- The identity produced by `get_row_id_from_row`: a single primary-key
value, an ordered tuple of primary-key values, or (when no primary key is
declared and the implicit `_tidb_rowid` is absent) the row hash. -/
inductive RowId (α : Type)
  | single (value : α)
  | tupleOf (values : List α)
  | hashFallback (h : Int)
deriving DecidableEq

/-- The KeyError message raised by `get_row_id_from_row` for a primary-key
column absent from the row; the Python quoting of the name and the bracketed
list rendering are elided. -/
def pkKeyErrorMsg {α : Type} (row : SaRow α) (missing : String) : String :=
  "Primary key column " ++ missing ++ " not found in Row. Available: "
    ++ String.intercalate ", " (row.mapping.map Prod.fst)

/-- The tuple generator `tuple(row._mapping[name] for name in pk_column_names)`
together with the surrounding try/except: the first absent name raises, and
the handler rebuilds the message from that name. -/
def lookupPkValues {α : Type} (row : SaRow α) : List String → Except String (List α)
  | [] => Except.ok []
  | name :: rest =>
    match row.mapping.lookup name with
    | Option.none => Except.error (pkKeyErrorMsg row name)
    | Option.some v =>
      match lookupPkValues row rest with
      | Except.error e => Except.error e
      | Except.ok vs => Except.ok (v :: vs)

/-- `get_row_id_from_row` from src/pytidb/utils.py; `pk_column_names` is the
ordered list of names of `table.primary_key.columns`. -/
def get_row_id_from_row {α : Type} (row : SaRow α) (pk_column_names : List String) :
    Except String (RowId α) :=
  match pk_column_names with
  | [] =>
    match row.mapping.lookup "_tidb_rowid" with
    | Option.some v => Except.ok (RowId.single v)
    | Option.none => Except.ok (RowId.hashFallback row.row_hash)
  | [name] =>
    match row.mapping.lookup name with
    | Option.some v => Except.ok (RowId.single v)
    | Option.none => Except.error (pkKeyErrorMsg row name)
  | names =>
    match lookupPkValues row names with
    | Except.error e => Except.error e
    | Except.ok vs => Except.ok (RowId.tupleOf vs)

theorem lookupPkValues_eq_mapM {α : Type} (row : SaRow α) (names : List String)
    (vs : List α)
    (h : names.mapM (fun name => row.mapping.lookup name) = Option.some vs) :
    lookupPkValues row names = Except.ok vs := by
  induction names generalizing vs with
  | nil =>
    simp only [List.mapM_nil, pure, Option.some.injEq] at h
    subst h
    rfl
  | cons n rest ih =>
    rw [List.mapM_cons] at h
    cases hl : row.mapping.lookup n with
    | none => rw [hl] at h; simp at h
    | some v =>
      rw [hl] at h
      simp only [Option.bind_eq_bind, Option.some_bind, Option.bind_eq_some] at h
      obtain ⟨vs2, h2, hv⟩ := h
      simp only [pure, Option.some.injEq] at hv
      subst hv
      simp [lookupPkValues, hl, ih vs2 h2]

theorem lookupPkValues_missing {α : Type} (row : SaRow α) (names : List String)
    (h : ∃ n ∈ names, row.mapping.lookup n = Option.none) :
    ∃ missing ∈ names, row.mapping.lookup missing = Option.none ∧
      lookupPkValues row names = Except.error (pkKeyErrorMsg row missing) := by
  induction names with
  | nil => simp at h
  | cons n rest ih =>
    cases hl : row.mapping.lookup n with
    | none =>
      exact ⟨n, List.mem_cons_self _ _, hl, by simp [lookupPkValues, hl]⟩
    | some v =>
      have h2 : ∃ m ∈ rest, row.mapping.lookup m = Option.none := by
        obtain ⟨m, hm, hnone⟩ := h
        rcases List.mem_cons.mp hm with hm | hm
        · subst hm; rw [hl] at hnone; exact absurd hnone (Option.some_ne_none v)
        · exact ⟨m, hm, hnone⟩
      obtain ⟨m, hm, hnone, heq⟩ := ih h2
      exact ⟨m, List.mem_cons_of_mem _ hm, hnone, by simp [lookupPkValues, hl, heq]⟩

/-- C6: row identity resolution — one declared primary-key column yields that
column's value; N>1 columns yield the ordered N-tuple of their values; a
declared column missing from the row yields a KeyError-class error naming a
missing column; with no declared primary key the implicit `_tidb_rowid` value
is used when present and the structural row hash otherwise, neither case
raising. -/
theorem C6_row_identity {α : Type} (row : SaRow α) :
    (∀ name v, row.mapping.lookup name = Option.some v →
      get_row_id_from_row row [name] = Except.ok (RowId.single v))
    ∧ (∀ n1 n2 rest vs,
        (n1 :: n2 :: rest).mapM (fun name => row.mapping.lookup name) = Option.some vs →
        get_row_id_from_row row (n1 :: n2 :: rest) = Except.ok (RowId.tupleOf vs))
    ∧ (∀ pk_column_names : List String, pk_column_names ≠ [] →
        (∃ name ∈ pk_column_names, row.mapping.lookup name = Option.none) →
        ∃ missing ∈ pk_column_names, row.mapping.lookup missing = Option.none ∧
          get_row_id_from_row row pk_column_names
            = Except.error (pkKeyErrorMsg row missing))
    ∧ (∀ v, row.mapping.lookup "_tidb_rowid" = Option.some v →
        get_row_id_from_row row [] = Except.ok (RowId.single v))
    ∧ (row.mapping.lookup "_tidb_rowid" = Option.none →
        get_row_id_from_row row [] = Except.ok (RowId.hashFallback row.row_hash)) := by
  refine ⟨?_, ?_, ?_, ?_, ?_⟩
  · intro name v hv
    simp [get_row_id_from_row, hv]
  · intro n1 n2 rest vs h
    have h2 := lookupPkValues_eq_mapM row (n1 :: n2 :: rest) vs h
    simp [get_row_id_from_row, h2]
  · intro pk_column_names hne h
    match pk_column_names, h with
    | [name], h =>
      obtain ⟨m, hm, hnone⟩ := h
      rcases List.mem_cons.mp hm with hm | hm
      · subst hm
        exact ⟨m, List.mem_cons_self _ _, hnone, by simp [get_row_id_from_row, hnone]⟩
      · exact absurd hm (List.not_mem_nil m)
    | n1 :: n2 :: rest, h =>
      obtain ⟨m, hm, hnone, heq⟩ := lookupPkValues_missing row (n1 :: n2 :: rest) h
      exact ⟨m, hm, hnone, by simp [get_row_id_from_row, heq]⟩
  · intro v hv
    simp [get_row_id_from_row, hv]
  · intro hv
    simp [get_row_id_from_row, hv]

theorem C6_row_identity_witness :
    get_row_id_from_row (⟨[("a", 1), ("b", 2)], 99⟩ : SaRow Int) ["a"]
      = Except.ok (RowId.single 1)
    ∧ get_row_id_from_row (⟨[("a", 1), ("b", 2)], 99⟩ : SaRow Int) ["a", "b"]
      = Except.ok (RowId.tupleOf [1, 2])
    ∧ (∃ missing ∈ ["a", "c"],
        (⟨[("a", 1), ("b", 2)], 99⟩ : SaRow Int).mapping.lookup missing = Option.none ∧
        get_row_id_from_row (⟨[("a", 1), ("b", 2)], 99⟩ : SaRow Int) ["a", "c"]
          = Except.error (pkKeyErrorMsg (⟨[("a", 1), ("b", 2)], 99⟩ : SaRow Int) missing))
    ∧ get_row_id_from_row (⟨[("_tidb_rowid", 42)], 99⟩ : SaRow Int) []
      = Except.ok (RowId.single 42)
    ∧ get_row_id_from_row (⟨[("a", 1), ("b", 2)], 99⟩ : SaRow Int) []
      = Except.ok (RowId.hashFallback 99) :=
  ⟨(C6_row_identity (⟨[("a", 1), ("b", 2)], 99⟩ : SaRow Int)).1 "a" 1 rfl,
   (C6_row_identity (⟨[("a", 1), ("b", 2)], 99⟩ : SaRow Int)).2.1 "a" "b" [] [1, 2] rfl,
   (C6_row_identity (⟨[("a", 1), ("b", 2)], 99⟩ : SaRow Int)).2.2.1 ["a", "c"]
     (by decide) ⟨"c", by decide, rfl⟩,
   (C6_row_identity (⟨[("_tidb_rowid", 42)], 99⟩ : SaRow Int)).2.2.2.1 42 rfl,
   (C6_row_identity (⟨[("a", 1), ("b", 2)], 99⟩ : SaRow Int)).2.2.2.2 rfl⟩

/-- The auto-embedding loop body of `Table.update` for one config.  Unlike
`insert`, the guards are dictionary-key membership tests on the values
payload: the config is skipped when the target vector field is a key of the
payload (even if mapped to None), and when the source field is not a key. -/
def updateAutoEmbedStep {α : Type} (config : AutoEmbeddingConfig α)
    (values : Record α) : Record α :=
  if (lookupAttr values config.vector_field_name).isSome then values
  else
    match lookupAttr values config.source_field_name with
    | Option.none => values
    | Option.some embedding_source =>
      setAttr values config.vector_field_name
        (Option.some (config.embed_fn.get_source_embedding embedding_source))

/-- The auto-embedding phase of `Table.update`: the loop over
`self._auto_embedding_configs.items()` applied to the values payload. -/
def updateAutoEmbed {α : Type} (configs : List (AutoEmbeddingConfig α))
    (values : Record α) : Record α :=
  match configs with
  | [] => values
  | c :: rest => updateAutoEmbed rest (updateAutoEmbedStep c values)

/-- The filtered update statement executed by `Table.update`: the (possibly
embedding-augmented) values payload and the opaque filters payload compiled
into the statement. -/
structure UpdateExecStmt (α : Type) where
  stmt_values : Record α
  stmt_filters : Option String
deriving DecidableEq

/-- The observable outcome of a `Table.update` call: the statement the
session executed, and the Python return value of the method.  The source has
no return statement on any path, so the method returns None, modelled as
`returned = Option.none`; the execution result of `db_session.execute(stmt)`
is discarded. -/
structure UpdateCallResult (α : Type) where
  executed : UpdateExecStmt α
  returned : Option (UpdateExecStmt α)
deriving DecidableEq

/-- `Table.update` from src/pytidb/table.py. -/
def tableUpdate {α : Type} (configs : List (AutoEmbeddingConfig α))
    (values : Record α) (filters : Option String) : UpdateCallResult α :=
  let vals := updateAutoEmbed configs values
  { executed := { stmt_values := vals, stmt_filters := filters }
    returned := Option.none }

/-- C7 counterexample: the claim says `update` returns the underlying
execution outcome, but the method body has no return statement, so it
returns None and the outcome of executing the statement is discarded —
exhibited here on a payload that does trigger embedding injection. -/
theorem C7_update_counterexample :
    (tableUpdate (α := Nat)
        [⟨⟨fun _ => 7, fun l => l.map fun _ => 7⟩, "embedding", "text"⟩]
        [("text", Option.some 3)] Option.none).returned
      ≠ Option.some (tableUpdate (α := Nat)
        [⟨⟨fun _ => 7, fun l => l.map fun _ => 7⟩, "embedding", "text"⟩]
        [("text", Option.some 3)] Option.none).executed :=
  fun h => Option.noConfusion h

/-- C7 (amended): for a table whose auto-embedding configuration consists of
the config on vector field V sourced from S, `update` leaves the payload
untouched when V is already a key of the payload (no embedding computed for
that config), injects `embed_fn.get_source_embedding` of the supplied source
value under V into the executed statement when V is absent and S present,
and returns None rather than the execution outcome. -/
theorem C7_update_auto_embedding {α : Type} (config : AutoEmbeddingConfig α)
    (values : Record α) (filters : Option String) :
    ((lookupAttr values config.vector_field_name).isSome = true →
      tableUpdate [config] values filters =
        { executed := { stmt_values := values, stmt_filters := filters }
          returned := Option.none })
    ∧ (lookupAttr values config.vector_field_name = Option.none →
       ∀ src, lookupAttr values config.source_field_name = Option.some src →
        (tableUpdate [config] values filters).executed.stmt_values =
          setAttr values config.vector_field_name
            (Option.some (config.embed_fn.get_source_embedding src)))
    ∧ (tableUpdate [config] values filters).returned = Option.none := by
  refine ⟨?_, ?_, rfl⟩
  · intro h
    simp [tableUpdate, updateAutoEmbed, updateAutoEmbedStep, h]
  · intro h src hsrc
    simp [tableUpdate, updateAutoEmbed, updateAutoEmbedStep, h, hsrc]

theorem C7_update_auto_embedding_witness :
    tableUpdate (α := Nat)
        [⟨⟨fun _ => 7, fun l => l.map fun _ => 7⟩, "embedding", "text"⟩]
        [("embedding", Option.some 5), ("text", Option.some 3)] Option.none =
      { executed :=
          { stmt_values := [("embedding", Option.some 5), ("text", Option.some 3)]
            stmt_filters := Option.none }
        returned := Option.none }
    ∧ (tableUpdate (α := Nat)
        [⟨⟨fun _ => 7, fun l => l.map fun _ => 7⟩, "embedding", "text"⟩]
        [("text", Option.some 3)] Option.none).executed.stmt_values =
      [("text", Option.some 3), ("embedding", Option.some 7)]
    ∧ (tableUpdate (α := Nat)
        [⟨⟨fun _ => 7, fun l => l.map fun _ => 7⟩, "embedding", "text"⟩]
        [("text", Option.some 3)] Option.none).returned = Option.none :=
  ⟨(C7_update_auto_embedding (α := Nat)
      ⟨⟨fun _ => 7, fun l => l.map fun _ => 7⟩, "embedding", "text"⟩
      [("embedding", Option.some 5), ("text", Option.some 3)] Option.none).1 rfl,
   (C7_update_auto_embedding (α := Nat)
      ⟨⟨fun _ => 7, fun l => l.map fun _ => 7⟩, "embedding", "text"⟩
      [("text", Option.some 3)] Option.none).2.1 rfl (Option.some 3) rfl,
   (C7_update_auto_embedding (α := Nat)
      ⟨⟨fun _ => 7, fun l => l.map fun _ => 7⟩, "embedding", "text"⟩
      [("text", Option.some 3)] Option.none).2.2⟩

/-- Errors raised by `Table.query` while applying `order_by`. -/
inductive PyErr
  | keyError (msg : String)
  | valueError (msg : String)
deriving DecidableEq

/-- One ordering element of the select statement built by `Table.query`. -/
inductive OrderElem
  | ascCol (name : String)
  | descCol (name : String)
  | rawExpr (e : Nat)
deriving DecidableEq

/-- The `order_by` argument of `Table.query`: a prebuilt ordering-expression
list (opaque ids), a single column name, or a mapping from column name to
direction (Python dicts preserve insertion order, hence a list of pairs). -/
inductive OrderBySpec
  | byList (es : List Nat)
  | byStr (s : String)
  | byDict (entries : List (String × String))
deriving DecidableEq

/-- The dict branch of the order-by loop in `Table.query`: entries processed
in insertion order; for each entry the unknown-column check runs first and
raises KeyError, then the direction is dispatched, any value other than
"desc" or "asc" raising ValueError (the quote marks the source message puts
around desc/asc are elided). -/
def applyOrderByDict (columns : List String) :
    List (String × String) → Except PyErr (List OrderElem)
  | [] => Except.ok []
  | (key, value) :: rest =>
    if !(columns.contains key) then
      Except.error (PyErr.keyError ("Unknown order by column: " ++ key))
    else if value = "desc" then
      match applyOrderByDict columns rest with
      | Except.error e => Except.error e
      | Except.ok elems => Except.ok (OrderElem.descCol key :: elems)
    else if value = "asc" then
      match applyOrderByDict columns rest with
      | Except.error e => Except.error e
      | Except.ok elems => Except.ok (OrderElem.ascCol key :: elems)
    else
      Except.error (PyErr.valueError
        ("Invalid order direction value (allowed: desc, asc): " ++ value))

/-- The select statement assembled by `Table.query` before it is executed. -/
structure QueryStmt where
  orderings : List OrderElem
  limit : Option Nat
  offset : Option Nat
deriving DecidableEq

/-- The statement-building part of `Table.query` (order-by application and
pagination).  In the source, `db_session.exec(stmt)` runs strictly after this
part, so an error branch here propagates before any statement is executed. -/
def buildQueryStmt (columns : List String) (order_by : Option OrderBySpec)
    (limit offset : Option Nat) : Except PyErr QueryStmt :=
  match order_by with
  | Option.none => Except.ok { orderings := [], limit := limit, offset := offset }
  | Option.some (OrderBySpec.byList es) =>
    Except.ok { orderings := es.map OrderElem.rawExpr, limit := limit, offset := offset }
  | Option.some (OrderBySpec.byStr s) =>
    if !(columns.contains s) then
      Except.error (PyErr.keyError ("Unknown order by column: " ++ s))
    else
      Except.ok { orderings := [OrderElem.ascCol s], limit := limit, offset := offset }
  | Option.some (OrderBySpec.byDict entries) =>
    match applyOrderByDict columns entries with
    | Except.error e => Except.error e
    | Except.ok elems =>
      Except.ok { orderings := elems, limit := limit, offset := offset }

/-- Does the result carry the lookup error (KeyError)? -/
def isKeyErrorResult {β : Type} : Except PyErr β → Bool
  | Except.error (PyErr.keyError _) => true
  | _ => false

/-- Does the result carry a ValueError? -/
def isValueErrorResult {β : Type} : Except PyErr β → Bool
  | Except.error (PyErr.valueError _) => true
  | _ => false

/-- The ordering element produced for one valid mapping entry. -/
def orderElemOfEntry (p : String × String) : OrderElem :=
  if p.2 = "desc" then OrderElem.descCol p.1 else OrderElem.ascCol p.1

theorem applyOrderByDict_all_valid (columns : List String)
    (entries : List (String × String))
    (h : ∀ p ∈ entries, columns.contains p.1 = true ∧ (p.2 = "asc" ∨ p.2 = "desc")) :
    applyOrderByDict columns entries = Except.ok (entries.map orderElemOfEntry) := by
  induction entries with
  | nil => rfl
  | cons q rest ih =>
    obtain ⟨key, value⟩ := q
    obtain ⟨hk, hv⟩ := h (key, value) (List.mem_cons_self _ _)
    have hkm : key ∈ columns := by simpa using hk
    have hrest := ih (fun p hp => h p (List.mem_cons_of_mem _ hp))
    rcases hv with hv | hv <;> subst hv <;>
      simp [applyOrderByDict, hkm, hrest, orderElemOfEntry]

theorem applyOrderByDict_unknown_key (columns : List String)
    (pre : List (String × String)) (key value : String) (post : List (String × String))
    (hpre : ∀ p ∈ pre, columns.contains p.1 = true ∧ (p.2 = "asc" ∨ p.2 = "desc"))
    (hkey : columns.contains key = false) :
    applyOrderByDict columns (pre ++ (key, value) :: post)
      = Except.error (PyErr.keyError ("Unknown order by column: " ++ key)) := by
  have hkeym : key ∉ columns := by simpa using hkey
  induction pre with
  | nil => simp [applyOrderByDict, hkeym]
  | cons q pre2 ih =>
    obtain ⟨k0, v0⟩ := q
    obtain ⟨hk0, hv0⟩ := hpre (k0, v0) (List.mem_cons_self _ _)
    have hk0m : k0 ∈ columns := by simpa using hk0
    have hrest := ih (fun p hp => hpre p (List.mem_cons_of_mem _ hp))
    rcases hv0 with hv0 | hv0 <;> subst hv0 <;>
      simp [applyOrderByDict, hk0m, hrest]

theorem applyOrderByDict_bad_direction (columns : List String)
    (pre : List (String × String)) (key value : String) (post : List (String × String))
    (hpre : ∀ p ∈ pre, columns.contains p.1 = true ∧ (p.2 = "asc" ∨ p.2 = "desc"))
    (hkey : columns.contains key = true)
    (hna : value ≠ "asc") (hnd : value ≠ "desc") :
    applyOrderByDict columns (pre ++ (key, value) :: post)
      = Except.error (PyErr.valueError
          ("Invalid order direction value (allowed: desc, asc): " ++ value)) := by
  have hkeym : key ∈ columns := by simpa using hkey
  induction pre with
  | nil => simp [applyOrderByDict, hkeym, hna, hnd]
  | cons q pre2 ih =>
    obtain ⟨k0, v0⟩ := q
    obtain ⟨hk0, hv0⟩ := hpre (k0, v0) (List.mem_cons_self _ _)
    have hk0m : k0 ∈ columns := by simpa using hk0
    have hrest := ih (fun p hp => hpre p (List.mem_cons_of_mem _ hp))
    rcases hv0 with hv0 | hv0 <;> subst hv0 <;>
      simp [applyOrderByDict, hk0m, hrest]

/-- C8 counterexample: with known column a and order_by given as the mapping
from a to "bogus" and from the unknown column zz to "asc", the claim requires
a lookup error naming zz, but the loop reaches the invalid direction on the
earlier entry first and raises ValueError instead, naming "bogus". -/
theorem C8_query_order_by_counterexample :
    (["a"] : List String).contains "zz" = false
    ∧ buildQueryStmt ["a"] (Option.some (OrderBySpec.byDict [("a", "bogus"), ("zz", "asc")]))
        Option.none Option.none
      = Except.error (PyErr.valueError
          "Invalid order direction value (allowed: desc, asc): bogus")
    ∧ isKeyErrorResult (buildQueryStmt ["a"]
        (Option.some (OrderBySpec.byDict [("a", "bogus"), ("zz", "asc")]))
        Option.none Option.none) = false :=
  ⟨rfl, rfl, rfl⟩

/-- C8 (amended): an unknown column name in string-form order_by, or in a
mapping entry each of whose earlier entries has a known column and a valid
direction, raises a KeyError naming the unknown column before any statement
is executed (an earlier entry with an invalid direction raises ValueError
first instead); known column names raise no such error, and a mapping entry
with direction "desc" orders that column descending. -/
theorem C8_query_order_by (columns : List String) :
    (∀ s limit offset, columns.contains s = false →
      buildQueryStmt columns (Option.some (OrderBySpec.byStr s)) limit offset
        = Except.error (PyErr.keyError ("Unknown order by column: " ++ s)))
    ∧ (∀ s limit offset, columns.contains s = true →
      buildQueryStmt columns (Option.some (OrderBySpec.byStr s)) limit offset
        = Except.ok { orderings := [OrderElem.ascCol s], limit := limit, offset := offset })
    ∧ (∀ pre key value post limit offset,
        (∀ p ∈ pre, columns.contains p.1 = true ∧ (p.2 = "asc" ∨ p.2 = "desc")) →
        columns.contains key = false →
        buildQueryStmt columns
            (Option.some (OrderBySpec.byDict (pre ++ (key, value) :: post))) limit offset
          = Except.error (PyErr.keyError ("Unknown order by column: " ++ key)))
    ∧ (∀ entries limit offset,
        (∀ p ∈ entries, columns.contains p.1 = true ∧ (p.2 = "asc" ∨ p.2 = "desc")) →
        buildQueryStmt columns (Option.some (OrderBySpec.byDict entries)) limit offset
          = Except.ok { orderings := entries.map orderElemOfEntry,
                        limit := limit, offset := offset }) := by
  refine ⟨?_, ?_, ?_, ?_⟩
  · intro s limit offset hs
    have hsm : s ∉ columns := by simpa using hs
    simp [buildQueryStmt, hsm]
  · intro s limit offset hs
    have hsm : s ∈ columns := by simpa using hs
    simp [buildQueryStmt, hsm]
  · intro pre key value post limit offset hpre hkey
    simp [buildQueryStmt, applyOrderByDict_unknown_key columns pre key value post hpre hkey]
  · intro entries limit offset h
    simp [buildQueryStmt, applyOrderByDict_all_valid columns entries h]

theorem C8_query_order_by_witness :
    buildQueryStmt ["a", "b"] (Option.some (OrderBySpec.byStr "zz")) Option.none Option.none
      = Except.error (PyErr.keyError "Unknown order by column: zz")
    ∧ buildQueryStmt ["a", "b"] (Option.some (OrderBySpec.byStr "a")) Option.none Option.none
      = Except.ok { orderings := [OrderElem.ascCol "a"],
                    limit := Option.none, offset := Option.none }
    ∧ buildQueryStmt ["a", "b"]
        (Option.some (OrderBySpec.byDict [("a", "desc"), ("zz", "asc")]))
        Option.none Option.none
      = Except.error (PyErr.keyError "Unknown order by column: zz")
    ∧ buildQueryStmt ["a", "b"]
        (Option.some (OrderBySpec.byDict [("a", "desc"), ("b", "asc")]))
        (Option.some 5) Option.none
      = Except.ok { orderings := [OrderElem.descCol "a", OrderElem.ascCol "b"],
                    limit := Option.some 5, offset := Option.none } :=
  ⟨(C8_query_order_by ["a", "b"]).1 "zz" Option.none Option.none rfl,
   (C8_query_order_by ["a", "b"]).2.1 "a" Option.none Option.none rfl,
   (C8_query_order_by ["a", "b"]).2.2.1 [("a", "desc")] "zz" "asc" []
     Option.none Option.none (by decide) rfl,
   (C8_query_order_by ["a", "b"]).2.2.2 [("a", "desc"), ("b", "asc")]
     (Option.some 5) Option.none (by decide)⟩

/-- C10 counterexample: with order_by mapping the unknown column zz to the
invalid direction "bogus", the claim requires a ValueError naming the value,
but the loop checks the key first and raises a KeyError instead. -/
theorem C10_order_direction_counterexample :
    ("bogus" ≠ "asc" ∧ "bogus" ≠ "desc")
    ∧ buildQueryStmt ["a"] (Option.some (OrderBySpec.byDict [("zz", "bogus")]))
        Option.none Option.none
      = Except.error (PyErr.keyError "Unknown order by column: zz")
    ∧ isValueErrorResult (buildQueryStmt ["a"]
        (Option.some (OrderBySpec.byDict [("zz", "bogus")]))
        Option.none Option.none) = false :=
  ⟨by decide, rfl, rfl⟩

/-- C10 (amended): a mapping entry with a known column and a direction other
than "asc"/"desc", each earlier entry having a known column and a valid
direction, raises a ValueError naming the invalid value and the allowed
directions before the statement is executed (an entry with an unknown column
raises KeyError first instead); "asc" entries order ascending and "desc"
entries order descending. -/
theorem C10_query_order_direction (columns : List String) :
    (∀ pre key value post limit offset,
      (∀ p ∈ pre, columns.contains p.1 = true ∧ (p.2 = "asc" ∨ p.2 = "desc")) →
      columns.contains key = true →
      value ≠ "asc" → value ≠ "desc" →
      buildQueryStmt columns
          (Option.some (OrderBySpec.byDict (pre ++ (key, value) :: post))) limit offset
        = Except.error (PyErr.valueError
            ("Invalid order direction value (allowed: desc, asc): " ++ value)))
    ∧ (∀ entries limit offset,
        (∀ p ∈ entries, columns.contains p.1 = true ∧ (p.2 = "asc" ∨ p.2 = "desc")) →
        buildQueryStmt columns (Option.some (OrderBySpec.byDict entries)) limit offset
          = Except.ok { orderings := entries.map orderElemOfEntry,
                        limit := limit, offset := offset }) := by
  refine ⟨?_, ?_⟩
  · intro pre key value post limit offset hpre hkey hna hnd
    simp [buildQueryStmt,
      applyOrderByDict_bad_direction columns pre key value post hpre hkey hna hnd]
  · intro entries limit offset h
    simp [buildQueryStmt, applyOrderByDict_all_valid columns entries h]

theorem C10_query_order_direction_witness :
    buildQueryStmt ["a", "b"] (Option.some (OrderBySpec.byDict [("b", "desc"), ("a", "bogus")]))
        Option.none Option.none
      = Except.error (PyErr.valueError
          "Invalid order direction value (allowed: desc, asc): bogus")
    ∧ buildQueryStmt ["a", "b"] (Option.some (OrderBySpec.byDict [("b", "asc")]))
        Option.none (Option.some 2)
      = Except.ok { orderings := [OrderElem.ascCol "b"],
                    limit := Option.none, offset := Option.some 2 } :=
  ⟨(C10_query_order_direction ["a", "b"]).1 [("b", "desc")] "a" "bogus" []
      Option.none Option.none (by decide) rfl (by decide) (by decide),
   (C10_query_order_direction ["a", "b"]).2 [("b", "asc")]
      Option.none (Option.some 2) (by decide)⟩

/-- The `allowed_schemes` constraint declared on `TiDBDsn`. -/
def tidbDsnAllowedSchemes : List String :=
  ["mysql", "mysql+mysqlconnector", "mysql+aiomysql", "mysql+asyncmy",
   "mysql+mysqldb", "mysql+pymysql", "mysql+cymysql", "mysql+pyodbc"]

/-- The components of a built TiDB DSN (scheme, authority, path and query
string), as assembled by `TiDBDsn.build`. -/
structure TiDBDsn where
  scheme : String
  host : String
  port : Nat
  username : String
  password : Option String
  path : String
  query_params : Option String
deriving DecidableEq

/-- `TiDBDsn.build`: pydantic URL construction under the `UrlConstraints` of
`TiDBDsn`, which restrict the scheme to the fixed list of mysql driver
schemes and reject anything else. -/
def TiDBDsn.build (scheme host : String) (port : Nat) (username : String)
    (password : Option String) (path : String) (query_params : Option String) :
    Except String TiDBDsn :=
  if tidbDsnAllowedSchemes.contains scheme then
    Except.ok { scheme := scheme, host := host, port := port, username := username,
                password := password, path := path, query_params := query_params }
  else
    Except.error ("URL scheme should match one of the allowed schemes: " ++ scheme)

theorem TiDBDsn_build_ok (scheme host : String) (port : Nat) (username : String)
    (password : Option String) (path : String) (query_params : Option String)
    (hc : tidbDsnAllowedSchemes.contains scheme = true) :
    TiDBDsn.build scheme host port username password path query_params
      = Except.ok { scheme := scheme, host := host, port := port, username := username,
                    password := password, path := path, query_params := query_params } := by
  have hm : scheme ∈ tidbDsnAllowedSchemes := by simpa using hc
  simp [TiDBDsn.build, hm]

theorem TiDBDsn_build_err (scheme host : String) (port : Nat) (username : String)
    (password : Option String) (path : String) (query_params : Option String)
    (hc : tidbDsnAllowedSchemes.contains scheme = false) :
    TiDBDsn.build scheme host port username password path query_params
      = Except.error ("URL scheme should match one of the allowed schemes: " ++ scheme) := by
  have hm : scheme ∉ tidbDsnAllowedSchemes := by simpa using hc
  simp [TiDBDsn.build, hm]

def hexUpperDigit (n : Nat) : Char :=
  if n < 10 then Char.ofNat (48 + n) else Char.ofNat (55 + n)

/-- The always-safe bytes of urllib quote: ASCII alphanumerics and `_.-~`. -/
def isUnreservedByte (b : Nat) : Bool :=
  (48 ≤ b && b ≤ 57) || (65 ≤ b && b ≤ 90) || (97 ≤ b && b ≤ 122)
    || b == 95 || b == 46 || b == 45 || b == 126

/-- `urllib.parse.quote` with its default safe set (the slash, byte 47):
every other UTF-8 byte outside the always-safe set is percent-encoded with
uppercase hex digits. -/
def pyQuote (s : String) : String :=
  String.join (s.toUTF8.toList.map (fun b =>
    let n := b.toNat
    if isUnreservedByte n || n == 47 then String.singleton (Char.ofNat n)
    else "%" ++ String.singleton (hexUpperDigit (n / 16))
      ++ String.singleton (hexUpperDigit (n % 16))))

/-- The twelve concrete renderings of the pattern suffix
`\.(prod|dev|staging)\.(shared\.)?(aws|alicloud)\.tidbcloud\.com`. -/
def serverlessTailOptions : List String :=
  (["prod", "dev", "staging"].flatMap (fun tier =>
    (["", "shared."].flatMap (fun sh =>
      ["aws", "alicloud"].map (fun cloud =>
        "." ++ tier ++ "." ++ sh ++ cloud ++ ".tidbcloud.com")))))

/-- Does the pattern suffix match at this point of the host (trailing
characters allowed, since the pattern is unanchored at its end)? -/
def checkServerlessTail (cs : List Char) : Bool :=
  serverlessTailOptions.any (fun opt => opt.data.isPrefixOf cs)

/-- Backtracking over the `(.+)` group of the pattern: consume at least one
character, none of which may be a newline, before a position where the tail
matches. -/
def scanServerlessMiddle : List Char → Bool
  | [] => false
  | c :: cs => !(c == '\n') && (checkServerlessTail cs || scanServerlessMiddle cs)

/-- `TIDB_SERVERLESS_HOST_PATTERN.match(host)` as a Boolean: the compiled
pattern `gateway\d{2}\.(.+)\.(prod|dev|staging)\.(shared\.)?(aws|alicloud)\.tidbcloud\.com`
matched at the start of the host (`re.match` anchors only at the start); `\d`
is modelled as an ASCII digit. -/
def tidbServerlessHostMatch (host : String) : Bool :=
  match host.data with
  | 'g' :: 'a' :: 't' :: 'e' :: 'w' :: 'a' :: 'y' :: d1 :: d2 :: '.' :: rest =>
    d1.isDigit && d2.isDigit && scanServerlessMiddle rest
  | _ => false

/-- The keyword parameters of `build_tidb_dsn` with their Python default
values as structure field defaults. -/
structure BuildDsnArgs where
  schema : String := "mysql+pymysql"
  host : String := "localhost"
  port : Nat := 4000
  username : String := "root"
  password : String := ""
  database : String := "test"
  enable_ssl : Option Bool := Option.none
deriving DecidableEq

def sslQueryString : String := "ssl_verify_cert=true&ssl_verify_identity=true"

/-- The `enable_ssl is None` defaulting block of `build_tidb_dsn`: with the
override unset, TLS is enabled when the host is truthy (non-empty) and
matches the serverless host pattern, and stays None otherwise; an explicit
override is kept as is. -/
def resolveEnableSsl (enable_ssl : Option Bool) (host : String) : Option Bool :=
  match enable_ssl with
  | Option.none =>
    if host = "" then Option.none
    else if tidbServerlessHostMatch host then Option.some true
    else Option.none
  | Option.some b => Option.some b

/-- `build_tidb_dsn` from src/pytidb/utils.py: the query string carries the
TLS verification parameters exactly when the resolved `enable_ssl` is truthy,
and the password is urllib-quoted when non-empty and omitted otherwise. -/
def build_tidb_dsn (a : BuildDsnArgs) : Except String TiDBDsn :=
  TiDBDsn.build a.schema a.host a.port a.username
    (if a.password ≠ "" then Option.some (pyQuote a.password) else Option.none)
    a.database
    (if resolveEnableSsl a.enable_ssl a.host = Option.some true then
      Option.some sslQueryString
    else Option.none)

/-- C9: with the TLS override unset, the built DSN carries the TLS
verification query parameters exactly when the (non-empty) host matches the
managed-service hostname pattern; an explicit override takes precedence over
the pattern; the port parameter defaults to 4000 and is what the built DSN
uses; and building succeeds exactly for the fixed set of mysql driver
schemes. -/
theorem C9_build_tidb_dsn (a : BuildDsnArgs) :
    (∀ d, a.enable_ssl = Option.none → build_tidb_dsn a = Except.ok d →
      (d.query_params = Option.some sslQueryString ↔
        (a.host ≠ "" ∧ tidbServerlessHostMatch a.host = true)))
    ∧ (∀ b d, a.enable_ssl = Option.some b → build_tidb_dsn a = Except.ok d →
      d.query_params = (if b then Option.some sslQueryString else Option.none))
    ∧ (({} : BuildDsnArgs).port = 4000)
    ∧ (∀ d, build_tidb_dsn a = Except.ok d → d.port = a.port)
    ∧ ((∃ d, build_tidb_dsn a = Except.ok d)
        ↔ tidbDsnAllowedSchemes.contains a.schema = true) := by
  refine ⟨?_, ?_, rfl, ?_, ?_⟩
  · intro d hnone hok
    unfold build_tidb_dsn at hok
    cases hc : tidbDsnAllowedSchemes.contains a.schema with
    | false =>
      rw [TiDBDsn_build_err _ _ _ _ _ _ _ hc] at hok
      exact absurd hok (by simp)
    | true =>
      rw [TiDBDsn_build_ok _ _ _ _ _ _ _ hc] at hok
      injection hok with hd
      subst hd
      by_cases hh : a.host = ""
      · simp [resolveEnableSsl, hnone, hh, sslQueryString]
      · cases hm : tidbServerlessHostMatch a.host with
        | false => simp [resolveEnableSsl, hnone, hh, hm, sslQueryString]
        | true => simp [resolveEnableSsl, hnone, hh, hm]
  · intro b d hsome hok
    unfold build_tidb_dsn at hok
    cases hc : tidbDsnAllowedSchemes.contains a.schema with
    | false =>
      rw [TiDBDsn_build_err _ _ _ _ _ _ _ hc] at hok
      exact absurd hok (by simp)
    | true =>
      rw [TiDBDsn_build_ok _ _ _ _ _ _ _ hc] at hok
      injection hok with hd
      subst hd
      cases b with
      | false => simp [resolveEnableSsl, hsome]
      | true => simp [resolveEnableSsl, hsome]
  · intro d hok
    unfold build_tidb_dsn at hok
    cases hc : tidbDsnAllowedSchemes.contains a.schema with
    | false =>
      rw [TiDBDsn_build_err _ _ _ _ _ _ _ hc] at hok
      exact absurd hok (by simp)
    | true =>
      rw [TiDBDsn_build_ok _ _ _ _ _ _ _ hc] at hok
      injection hok with hd
      subst hd
      rfl
  · constructor
    · rintro ⟨d, hd⟩
      cases hc : tidbDsnAllowedSchemes.contains a.schema with
      | true => rfl
      | false =>
        unfold build_tidb_dsn at hd
        rw [TiDBDsn_build_err _ _ _ _ _ _ _ hc] at hd
        exact absurd hd (by simp)
    · intro hc
      refine ⟨{ scheme := a.schema, host := a.host, port := a.port, username := a.username,
                password := if a.password ≠ "" then Option.some (pyQuote a.password)
                  else Option.none,
                path := a.database,
                query_params := if resolveEnableSsl a.enable_ssl a.host = Option.some true then
                    Option.some sslQueryString
                  else Option.none }, ?_⟩
      unfold build_tidb_dsn
      rw [TiDBDsn_build_ok _ _ _ _ _ _ _ hc]

/-- A serverless gateway host used in the witness instantiation. -/
def gatewayHostExample : String := "gateway01.us-west-2.prod.aws.tidbcloud.com"

/-- The DSN built for the serverless host with the TLS override unset. -/
def serverlessDsnExample : TiDBDsn :=
  { scheme := "mysql+pymysql"
    host := gatewayHostExample
    port := 4000
    username := "root"
    password := Option.none
    path := "test"
    query_params := Option.some sslQueryString }

/-- The DSN built for the serverless host with the TLS override set False. -/
def serverlessDsnExampleNoSsl : TiDBDsn :=
  { scheme := "mysql+pymysql"
    host := gatewayHostExample
    port := 4000
    username := "root"
    password := Option.none
    path := "test"
    query_params := Option.none }

theorem C9_build_tidb_dsn_witness :
    (serverlessDsnExample.query_params = Option.some sslQueryString ↔
      (gatewayHostExample ≠ "" ∧ tidbServerlessHostMatch gatewayHostExample = true))
    ∧ serverlessDsnExampleNoSsl.query_params
        = (if false then Option.some sslQueryString else Option.none)
    ∧ serverlessDsnExample.port = 4000
    ∧ ((∃ d, build_tidb_dsn { schema := "postgres" } = Except.ok d)
        ↔ tidbDsnAllowedSchemes.contains "postgres" = true) :=
  ⟨(C9_build_tidb_dsn { host := gatewayHostExample }).1 serverlessDsnExample rfl rfl,
   (C9_build_tidb_dsn { host := gatewayHostExample, enable_ssl := Option.some false }).2.1
      false serverlessDsnExampleNoSsl rfl rfl,
   (C9_build_tidb_dsn { host := gatewayHostExample }).2.2.2.1 serverlessDsnExample rfl,
   (C9_build_tidb_dsn { schema := "postgres" }).2.2.2.2⟩

/-- The needs-embedding test performed by the `bulk_insert` loop body on one
record: skip when `getattr(item, field_name)` is not None, skip when the
source attribute is absent; `getattr` on a record lacking the vector
attribute raises AttributeError (a schema instance always carries it). -/
def needsEmbeddingE {α : Type} (config : AutoEmbeddingConfig α) (item : Record α) :
    Except String Bool :=
  match lookupAttr item config.vector_field_name with
  | Option.none => Except.error ("AttributeError: " ++ config.vector_field_name)
  | Option.some (Option.some _) => Except.ok false
  | Option.some Option.none =>
    Except.ok ((lookupAttr item config.source_field_name).isSome)

/-- Total form of the needs-embedding test, for stating properties: the
target vector attribute is present and None and the source attribute is
present. -/
def needsEmbeddingB {α : Type} (config : AutoEmbeddingConfig α) (item : Record α) : Bool :=
  match lookupAttr item config.vector_field_name with
  | Option.some Option.none => (lookupAttr item config.source_field_name).isSome
  | _ => false

/-- The source value collected for a record that needs embedding (its source
attribute is present whenever it is collected; the default is never used). -/
def sourceValue {α : Type} (config : AutoEmbeddingConfig α) (item : Record α) : Option α :=
  (lookupAttr item config.source_field_name).getD Option.none

/-- First pass of the `bulk_insert` loop body for one config: walk the
records in input order and collect the source values of the records needing
embedding (`sources_to_embedding`). -/
def collectNeedingSources {α : Type} (config : AutoEmbeddingConfig α) :
    List (Record α) → Except String (List (Option α))
  | [] => Except.ok []
  | item :: rest =>
    match needsEmbeddingE config item with
    | Except.error e => Except.error e
    | Except.ok b =>
      match collectNeedingSources config rest with
      | Except.error e => Except.error e
      | Except.ok sources =>
        if b then Except.ok (sourceValue config item :: sources)
        else Except.ok sources

/-- Second pass of the `bulk_insert` loop body:
`zip(items_need_embedding, vector_embeddings)` with the `setattr` writes,
expressed positionally over the input list (list positions stand for object
identities): each record needing embedding receives the next returned
embedding, and needing records beyond the returned embeddings stay
unchanged, mirroring zip truncation. -/
def assignEmbeddings {α : Type} (config : AutoEmbeddingConfig α) :
    List (Record α) → List α → Except String (List (Record α))
  | [], _ => Except.ok []
  | item :: rest, embeddings =>
    match needsEmbeddingE config item with
    | Except.error e => Except.error e
    | Except.ok false =>
      match assignEmbeddings config rest embeddings with
      | Except.error e => Except.error e
      | Except.ok out => Except.ok (item :: out)
    | Except.ok true =>
      match embeddings with
      | [] =>
        match assignEmbeddings config rest [] with
        | Except.error e => Except.error e
        | Except.ok out => Except.ok (item :: out)
      | e :: es =>
        match assignEmbeddings config rest es with
        | Except.error e => Except.error e
        | Except.ok out =>
          Except.ok (setAttr item config.vector_field_name (Option.some e) :: out)

/-- One iteration of the `bulk_insert` auto-embedding loop (one config):
collect the sources of the records needing embedding, call
`get_source_embeddings` once on them, and assign the results positionally.
The second component reports the argument list of each batch call made —
exactly one per config (the source guard on a missing embed function never
fires, since `_setup_auto_embedding` only builds configs carrying one). -/
def bulkEmbedConfigRun {α : Type} (config : AutoEmbeddingConfig α)
    (data : List (Record α)) :
    Except String (List (Record α) × List (List (Option α))) :=
  match collectNeedingSources config data with
  | Except.error e => Except.error e
  | Except.ok sources =>
    match assignEmbeddings config data (config.embed_fn.get_source_embeddings sources) with
    | Except.error e => Except.error e
    | Except.ok out => Except.ok (out, [sources])

/-- The full auto-embedding phase of `Table.bulk_insert`: iterate the
configs, threading the record list and concatenating the batch-call logs. -/
def bulkInsertAutoEmbed {α : Type} (configs : List (AutoEmbeddingConfig α))
    (data : List (Record α)) :
    Except String (List (Record α) × List (List (Option α))) :=
  match configs with
  | [] => Except.ok (data, [])
  | c :: rest =>
    match bulkEmbedConfigRun c data with
    | Except.error e => Except.error e
    | Except.ok (d1, log1) =>
      match bulkInsertAutoEmbed rest d1 with
      | Except.error e => Except.error e
      | Except.ok (d2, log2) => Except.ok (d2, log1 ++ log2)

theorem needsEmbeddingE_ok {α : Type} (config : AutoEmbeddingConfig α) (item : Record α)
    (h : (lookupAttr item config.vector_field_name).isSome = true) :
    needsEmbeddingE config item = Except.ok (needsEmbeddingB config item) := by
  unfold needsEmbeddingE needsEmbeddingB
  cases hv : lookupAttr item config.vector_field_name with
  | none => rw [hv] at h; exact absurd h (by simp)
  | some w => cases w <;> rfl

theorem collectNeedingSources_ok {α : Type} (config : AutoEmbeddingConfig α)
    (data : List (Record α))
    (h : ∀ item ∈ data, (lookupAttr item config.vector_field_name).isSome = true) :
    collectNeedingSources config data
      = Except.ok ((data.filter (needsEmbeddingB config)).map (sourceValue config)) := by
  induction data with
  | nil => rfl
  | cons item rest ih =>
    have hne := needsEmbeddingE_ok config item (h item (List.mem_cons_self _ _))
    have hrest := ih (fun it hm => h it (List.mem_cons_of_mem _ hm))
    cases hb : needsEmbeddingB config item <;>
      simp [collectNeedingSources, hne, hb, hrest, List.filter_cons]

theorem assignEmbeddings_props {α : Type} (config : AutoEmbeddingConfig α) :
    ∀ (data : List (Record α)) (es : List α),
    (∀ item ∈ data, (lookupAttr item config.vector_field_name).isSome = true) →
    ∃ out, assignEmbeddings config data es = Except.ok out
      ∧ out.length = data.length
      ∧ (∀ item2 ∈ out, ∃ item ∈ data,
          item2 = item ∨ ∃ e, item2 = setAttr item config.vector_field_name (Option.some e))
      ∧ (∀ i item, data[i]? = Option.some item →
          (needsEmbeddingB config item = false → out[i]? = Option.some item)
          ∧ (needsEmbeddingB config item = true →
            ∀ e, es[((data.take i).filter (needsEmbeddingB config)).length]? = Option.some e →
              out[i]? = Option.some
                (setAttr item config.vector_field_name (Option.some e)))) := by
  intro data
  induction data with
  | nil =>
    intro es h
    refine ⟨[], rfl, rfl, by simp, ?_⟩
    intro i item hit
    simp at hit
  | cons d rest ih =>
    intro es h
    have hd := h d (List.mem_cons_self _ _)
    have hne := needsEmbeddingE_ok config d hd
    have hrest : ∀ item ∈ rest, (lookupAttr item config.vector_field_name).isSome = true :=
      fun it hm => h it (List.mem_cons_of_mem _ hm)
    cases hb : needsEmbeddingB config d with
    | false =>
      obtain ⟨out, hout, hlen, hmem, hprop⟩ := ih es hrest
      refine ⟨d :: out, ?_, ?_, ?_, ?_⟩
      · simp [assignEmbeddings, hne, hb, hout]
      · simp [hlen]
      · intro item2 hm2
        rcases List.mem_cons.mp hm2 with hm2 | hm2
        · exact ⟨d, List.mem_cons_self _ _, Or.inl hm2⟩
        · obtain ⟨item, hitm, hor⟩ := hmem item2 hm2
          exact ⟨item, List.mem_cons_of_mem _ hitm, hor⟩
      · intro i item hit
        cases i with
        | zero =>
          simp only [List.getElem?_cons_zero, Option.some.injEq] at hit
          subst hit
          constructor
          · intro _
            simp
          · intro ht
            rw [hb] at ht
            exact absurd ht (by simp)
        | succ i =>
          simp only [List.getElem?_cons_succ] at hit
          obtain ⟨h1, h2⟩ := hprop i item hit
          constructor
          · intro hf
            simpa using h1 hf
          · intro ht e he
            have hcount : (((d :: rest).take (i + 1)).filter (needsEmbeddingB config)).length
                = ((rest.take i).filter (needsEmbeddingB config)).length := by
              simp [List.take_succ_cons, List.filter_cons, hb]
            rw [hcount] at he
            simpa using h2 ht e he
    | true =>
      cases es with
      | nil =>
        obtain ⟨out, hout, hlen, hmem, hprop⟩ := ih [] hrest
        refine ⟨d :: out, ?_, ?_, ?_, ?_⟩
        · simp [assignEmbeddings, hne, hb, hout]
        · simp [hlen]
        · intro item2 hm2
          rcases List.mem_cons.mp hm2 with hm2 | hm2
          · exact ⟨d, List.mem_cons_self _ _, Or.inl hm2⟩
          · obtain ⟨item, hitm, hor⟩ := hmem item2 hm2
            exact ⟨item, List.mem_cons_of_mem _ hitm, hor⟩
        · intro i item hit
          cases i with
          | zero =>
            simp only [List.getElem?_cons_zero, Option.some.injEq] at hit
            subst hit
            constructor
            · intro hf
              rw [hb] at hf
              exact absurd hf (by simp)
            · intro _ e he
              simp at he
          | succ i =>
            simp only [List.getElem?_cons_succ] at hit
            obtain ⟨h1, h2⟩ := hprop i item hit
            constructor
            · intro hf
              simpa using h1 hf
            · intro ht e he
              simp at he
      | cons e0 es2 =>
        obtain ⟨out, hout, hlen, hmem, hprop⟩ := ih es2 hrest
        refine ⟨setAttr d config.vector_field_name (Option.some e0) :: out, ?_, ?_, ?_, ?_⟩
        · simp [assignEmbeddings, hne, hb, hout]
        · simp [hlen]
        · intro item2 hm2
          rcases List.mem_cons.mp hm2 with hm2 | hm2
          · exact ⟨d, List.mem_cons_self _ _, Or.inr ⟨e0, hm2⟩⟩
          · obtain ⟨item, hitm, hor⟩ := hmem item2 hm2
            exact ⟨item, List.mem_cons_of_mem _ hitm, hor⟩
        · intro i item hit
          cases i with
          | zero =>
            simp only [List.getElem?_cons_zero, Option.some.injEq] at hit
            subst hit
            constructor
            · intro hf
              rw [hb] at hf
              exact absurd hf (by simp)
            · intro _ e he
              simp only [List.take_zero, List.filter_nil, List.length_nil,
                List.getElem?_cons_zero, Option.some.injEq] at he
              subst he
              simp
          | succ i =>
            simp only [List.getElem?_cons_succ] at hit
            obtain ⟨h1, h2⟩ := hprop i item hit
            constructor
            · intro hf
              simpa using h1 hf
            · intro ht e he
              have hcount : (((d :: rest).take (i + 1)).filter (needsEmbeddingB config)).length
                  = ((rest.take i).filter (needsEmbeddingB config)).length + 1 := by
                simp [List.take_succ_cons, List.filter_cons, hb]
              rw [hcount] at he
              simp only [List.getElem?_cons_succ] at he
              simpa using h2 ht e he

/-- C4: for every record list and every Auto-Embedding Config, the
`bulk_insert` embedding loop makes exactly one `get_source_embeddings` call
for that config, over exactly the source values of the records whose target
vector field is None and whose source field is present, in input-list order;
the returned vectors are assigned back positionally (the record that is the
k-th one collected receives the k-th returned embedding, all other records
staying unchanged); and across a whole `bulk_insert`, the number of batch
calls equals the number of configs, not the number of records. -/
theorem C4_bulk_insert_batching {α : Type} :
    (∀ (config : AutoEmbeddingConfig α) (data : List (Record α)),
      (∀ item ∈ data, (lookupAttr item config.vector_field_name).isSome = true) →
      ∃ out, bulkEmbedConfigRun config data
          = Except.ok (out, [(data.filter (needsEmbeddingB config)).map (sourceValue config)])
        ∧ out.length = data.length
        ∧ (∀ (i : Nat) (item : Record α), data[i]? = Option.some item →
            needsEmbeddingB config item = false → out[i]? = Option.some item)
        ∧ (∀ (i : Nat) (item : Record α), data[i]? = Option.some item →
            needsEmbeddingB config item = true →
            ∀ e, (config.embed_fn.get_source_embeddings
                ((data.filter (needsEmbeddingB config)).map
                  (sourceValue config)))[((data.take i).filter
                    (needsEmbeddingB config)).length]?
              = Option.some e →
            out[i]? = Option.some (setAttr item config.vector_field_name (Option.some e))))
    ∧ (∀ (configs : List (AutoEmbeddingConfig α)) (data : List (Record α)),
      (∀ c ∈ configs, ∀ item ∈ data, (lookupAttr item c.vector_field_name).isSome = true) →
      ∃ out log, bulkInsertAutoEmbed configs data = Except.ok (out, log)
        ∧ log.length = configs.length) := by
  constructor
  · intro config data h
    have hcol := collectNeedingSources_ok config data h
    obtain ⟨out, hout, hlen, hmem, hprop⟩ := assignEmbeddings_props config data
      (config.embed_fn.get_source_embeddings
        ((data.filter (needsEmbeddingB config)).map (sourceValue config))) h
    refine ⟨out, ?_, hlen, ?_, ?_⟩
    · simp [bulkEmbedConfigRun, hcol, hout]
    · intro i item hit hf
      exact (hprop i item hit).1 hf
    · intro i item hit ht e he
      exact (hprop i item hit).2 ht e he
  · intro configs
    induction configs with
    | nil =>
      intro data h
      exact ⟨data, [], rfl, rfl⟩
    | cons c rest ih =>
      intro data h
      have hc := h c (List.mem_cons_self _ _)
      have hcol := collectNeedingSources_ok c data hc
      obtain ⟨out1, hout1, hlen1, hmem1, hprop1⟩ := assignEmbeddings_props c data
        (c.embed_fn.get_source_embeddings
          ((data.filter (needsEmbeddingB c)).map (sourceValue c))) hc
      have hrun : bulkEmbedConfigRun c data
          = Except.ok (out1, [(data.filter (needsEmbeddingB c)).map (sourceValue c)]) := by
        simp [bulkEmbedConfigRun, hcol, hout1]
      have hpres : ∀ c2 ∈ rest, ∀ item2 ∈ out1,
          (lookupAttr item2 c2.vector_field_name).isSome = true := by
        intro c2 hc2 item2 hm2
        obtain ⟨item, hitm, hor⟩ := hmem1 item2 hm2
        have hbase := h c2 (List.mem_cons_of_mem _ hc2) item hitm
        rcases hor with rfl | ⟨e, rfl⟩
        · exact hbase
        · exact lookupAttr_setAttr_isSome _ _ _ _ hbase
      obtain ⟨out2, log2, hrun2, hlog2⟩ := ih out1 hpres
      refine ⟨out2, [(data.filter (needsEmbeddingB c)).map (sourceValue c)] ++ log2, ?_, ?_⟩
      · simp [bulkInsertAutoEmbed, hrun, hrun2]
      · simp [hlog2]

/-- A sample config for the C4 witness: embeddings are derived from the
source value, so that positional assignment is observable. -/
def c4Config : AutoEmbeddingConfig Nat :=
  ⟨⟨fun _ => 7, fun l => l.map (fun s => s.getD 0 + 100)⟩, "embedding", "text"⟩

/-- Sample records for the C4 witness: the first and third need embedding,
the second already carries one. -/
def c4Data : List (Record Nat) :=
  [[("embedding", Option.none), ("text", Option.some 1)],
   [("embedding", Option.some 5), ("text", Option.some 2)],
   [("embedding", Option.none), ("text", Option.some 3)]]

theorem C4_bulk_insert_batching_witness :
    (∃ out, bulkEmbedConfigRun c4Config c4Data
        = Except.ok (out,
            [(c4Data.filter (needsEmbeddingB c4Config)).map (sourceValue c4Config)])
      ∧ out.length = c4Data.length
      ∧ (∀ (i : Nat) (item : Record Nat), c4Data[i]? = Option.some item →
          needsEmbeddingB c4Config item = false → out[i]? = Option.some item)
      ∧ (∀ (i : Nat) (item : Record Nat), c4Data[i]? = Option.some item →
          needsEmbeddingB c4Config item = true →
          ∀ e, (c4Config.embed_fn.get_source_embeddings
              ((c4Data.filter (needsEmbeddingB c4Config)).map
                (sourceValue c4Config)))[((c4Data.take i).filter
                  (needsEmbeddingB c4Config)).length]? = Option.some e →
          out[i]? = Option.some (setAttr item c4Config.vector_field_name (Option.some e))))
    ∧ (∃ out log, bulkInsertAutoEmbed [c4Config] c4Data = Except.ok (out, log)
        ∧ log.length = 1)
    ∧ bulkEmbedConfigRun c4Config c4Data
        = Except.ok ([[("embedding", Option.some 101), ("text", Option.some 1)],
                      [("embedding", Option.some 5), ("text", Option.some 2)],
                      [("embedding", Option.some 103), ("text", Option.some 3)]],
                     [[Option.some 1, Option.some 3]]) :=
  ⟨(C4_bulk_insert_batching (α := Nat)).1 c4Config c4Data (by decide),
   (C4_bulk_insert_batching (α := Nat)).2 [c4Config] c4Data (by decide),
   rfl⟩

end PyTidb
